import Mathlib

/-!
# rock-dvd-screensaver: the bounce loop of `src/sdl/main.c`

A shallow embedding of `main` (lines 129-231 of `src/sdl/main.c`).

* The locals of `main` that the loop reads or writes form the record `State`.
* C `int` values are modelled by `Int`.  Signed overflow is undefined in C, so
  the model describes the executions in which no `int` operation overflows.
* Everything the loop obtains from outside the program is explicit:
  the events delivered by `SDL_PollEvent`, the window surface returned by
  `SDL_GetWindowSurface`, the values returned by `rand`, the decoded images,
  the decoded sound, and what `SDL_BlitSurface` writes through the
  `&rect_surface` pointer it is handed.
* The audio device queue is a list of pending buffers.
-/

namespace RockDvd

/-! ## Data model -/

/-- The four `int` fields of `SDL_Rect`. -/
structure SDL_Rect where
  x : Int
  y : Int
  w : Int
  h : Int
  deriving DecidableEq, Repr

/-- The fields of an `SDL_Surface` that matter for the loop: its pixel size.
The clip rectangle of a surface is the whole surface. -/
structure SDL_Surface where
  w : Int
  h : Int
  deriving DecidableEq, Repr

/-- The events the loop distinguishes (lines 181-187).  `windowResized w h` is
an `SDL_WINDOWEVENT` with `SDL_WINDOWEVENT_RESIZED`; `w` and `h` are what
`SDL_GetWindowSize` stores when the event is handled.  Every other event is
`other`. -/
inductive SDL_Event where
  | quit
  | windowResized (w h : Int)
  | other
  deriving DecidableEq, Repr

/-- What the program gets from outside during its run. -/
structure Env where
  /-- The surfaces `images[0]` .. `images[7]` (lines 142-151). -/
  images : Nat → SDL_Surface
  /-- The bytes `wav_buffer[0 .. wav_length)` loaded at line 165. -/
  wav_buffer : List Nat
  /-- The value returned by the k-th call of `rand` (0 ≤ value ≤ RAND_MAX). -/
  rand : Nat → Nat
  /-- What `SDL_BlitSurface src NULL dst dstrect` leaves in `*dstrect`. -/
  SDL_BlitSurface : SDL_Surface → SDL_Surface → SDL_Rect → SDL_Rect

/-- What one loop iteration gets from outside: the events `SDL_PollEvent`
delivers during the drain (line 180) and the surface `SDL_GetWindowSurface`
returns (line 218). -/
structure FrameInput where
  events : List SDL_Event
  window_surface : SDL_Surface
  deriving DecidableEq, Repr

/-- The locals of `main` used by the loop, the audio device queue and the
frames handed to the window. -/
structure State where
  is_game_running : Int
  SCREEN_WIDTH : Int
  SCREEN_HEIGHT : Int
  /-- The index `i` such that `image_surface == images[i]`. -/
  image_surface : Nat
  rect_surface : SDL_Rect
  speed : Int
  dir_x : Int
  dir_y : Int
  /-- Number of calls of `rand` made so far. -/
  rand_calls : Nat
  /-- Buffers pending on the audio device, oldest first. -/
  audio_queue : List (List Nat)
  audio_paused : Bool
  /-- One entry per `SDL_UpdateWindowSurface`: the image blitted and the
  rectangle it was blitted at. -/
  presented : List (Nat × SDL_Rect)
  deriving DecidableEq, Repr

/-! ## The program -/

/-- The state on entry to the loop (lines 130-176).  `rect_surface` is declared
at line 156 and only its `x` and `y` are assigned (lines 157-158): `w0` and
`h0` stand for the indeterminate contents of `rect_surface.w` and
`rect_surface.h`.  `SDL_OpenAudioDevice` opens the device paused and with an
empty queue. -/
def init (w0 h0 : Int) : State :=
  { is_game_running := 1
    SCREEN_WIDTH := 640
    SCREEN_HEIGHT := 480
    image_surface := 0
    rect_surface := { x := 0, y := 0, w := w0, h := h0 }
    speed := 2
    dir_x := 1
    dir_y := -1
    rand_calls := 0
    audio_queue := []
    audio_paused := true
    presented := [] }

/-- The body of the event loop (lines 181-187). -/
def handleEvent (s : State) : SDL_Event → State
  | SDL_Event.quit => { s with is_game_running := 0 }
  | SDL_Event.windowResized w h =>
    { s with
      SCREEN_WIDTH := w
      SCREEN_HEIGHT := h
      rect_surface := { s.rect_surface with x := 0, y := 0 } }
  | SDL_Event.other => s

/-- The event drain `while (SDL_PollEvent(&e) > 0) ...` (lines 180-188). -/
def pollEvents (s : State) (events : List SDL_Event) : State :=
  events.foldl handleEvent s

/-- The call `SDL_ClearQueuedAudio(device_id)`. -/
def SDL_ClearQueuedAudio (s : State) : State :=
  { s with audio_queue := [] }

/-- The call `SDL_QueueAudio(device_id, wav_buffer, wav_length)`. -/
def SDL_QueueAudio (buf : List Nat) (s : State) : State :=
  { s with audio_queue := s.audio_queue ++ [buf] }

/-- The call `SDL_PauseAudioDevice(device_id, 0)`. -/
def SDL_PauseAudioDevice (s : State) : State :=
  { s with audio_paused := false }

/-- The statement `image_surface = images[rand() % 8]` (lines 193 and 203). -/
def pickImage (env : Env) (s : State) : State :=
  { s with image_surface := env.rand s.rand_calls % 8, rand_calls := s.rand_calls + 1 }

/-- The audio statements shared by both branches (lines 195-200, 205-210). -/
def playSound (env : Env) (s : State) : State :=
  SDL_PauseAudioDevice (SDL_QueueAudio env.wav_buffer (SDL_ClearQueuedAudio s))

/-- The condition of the `if` at line 191. -/
def xCollision (s : State) : Prop :=
  s.rect_surface.x + s.rect_surface.w ≥ s.SCREEN_WIDTH ∨ s.rect_surface.x ≤ 0

/-- The condition of the `else if` at line 201. -/
def yCollision (s : State) : Prop :=
  s.rect_surface.y + s.rect_surface.h ≥ s.SCREEN_HEIGHT ∨ s.rect_surface.y ≤ 0

instance (s : State) : Decidable (xCollision s) := by
  unfold xCollision; exact inferInstance

instance (s : State) : Decidable (yCollision s) := by
  unfold yCollision; exact inferInstance

/-- The boundary check (lines 190-211). -/
def boundaryCheck (env : Env) (s : State) : State :=
  if xCollision s then
    playSound env (pickImage env { s with dir_x := s.dir_x * -1 })
  else if yCollision s then
    playSound env (pickImage env { s with dir_y := s.dir_y * -1 })
  else
    s

/-- The position update (lines 213-215). -/
def updatePosition (s : State) : State :=
  { s with
    rect_surface :=
      { s.rect_surface with
        x := s.rect_surface.x + s.dir_x * s.speed
        y := s.rect_surface.y + s.dir_y * s.speed } }

/-- The drawing statements (lines 217-222): the selected image is blitted onto
the window surface at `rect_surface`, through a pointer to `rect_surface`, and
the window is presented. -/
def render (env : Env) (window_surface : SDL_Surface) (s : State) : State :=
  let r := env.SDL_BlitSurface (env.images s.image_surface) window_surface s.rect_surface
  { s with rect_surface := r, presented := s.presented ++ [(s.image_surface, r)] }

/-- The part of the loop body before the drawing statements (lines 179-215). -/
def advance (env : Env) (inp : FrameInput) (s : State) : State :=
  updatePosition (boundaryCheck env (pollEvents s inp.events))

/-- One iteration of the loop body (lines 179-222). -/
def frame (env : Env) (inp : FrameInput) (s : State) : State :=
  render env inp.window_surface (advance env inp s)

/-- The loop `while (is_game_running == 1) ...` (lines 178-223) run against the
inputs of the successive iterations; it stops when the flag is not 1 or when
the given inputs are used up. -/
def mainLoop (env : Env) : List FrameInput → State → State
  | [], s => s
  | inp :: rest, s =>
    if s.is_game_running = 1 then mainLoop env rest (frame env inp s) else s

/-! ## The library call that writes to `rect_surface`

`SDL_BlitSurface` is not part of the repository.  The loop hands it a pointer
to `rect_surface` (line 220) and reads `rect_surface` back in the next boundary
check (lines 191, 201), so what the call stores there is part of the behaviour
of the loop.  `Env.SDL_BlitSurface` keeps it a parameter; `SDL_UpperBlit` is
the behaviour of SDL2.
-/

/-- What SDL2's `SDL_BlitSurface` (the function `SDL_UpperBlit`) with a NULL
source rectangle leaves in the destination rectangle (`SDL_surface.h`: "The
final blit rectangles are saved in srcrect and dstrect after all clipping is
performed").  The incoming `w` and `h` are ignored; the size of the source
surface is clipped against the clip rectangle `(0, 0, dst.w, dst.h)` of the
destination, a negative `x` or `y` is moved to 0, and `w` and `h` receive the
clipped size, or 0 and 0 when nothing is left to blit. -/
def SDL_UpperBlit (src dst : SDL_Surface) (dstrect : SDL_Rect) : SDL_Rect :=
  let dx := 0 - dstrect.x
  let w1 := if dx > 0 then src.w - dx else src.w
  let x1 := if dx > 0 then dstrect.x + dx else dstrect.x
  let dx2 := x1 + w1 - 0 - dst.w
  let w2 := if dx2 > 0 then w1 - dx2 else w1
  let dy := 0 - dstrect.y
  let h1 := if dy > 0 then src.h - dy else src.h
  let y1 := if dy > 0 then dstrect.y + dy else dstrect.y
  let dy2 := y1 + h1 - 0 - dst.h
  let h2 := if dy2 > 0 then h1 - dy2 else h1
  if w2 > 0 ∧ h2 > 0 then { x := x1, y := y1, w := w2, h := h2 }
  else { x := x1, y := y1, w := 0, h := 0 }

/-- Eight images of one size, SDL2's blit. -/
def sameSize (image : SDL_Surface) (wav : List Nat) (rand : Nat → Nat) : Env :=
  { images := fun _ => image
    wav_buffer := wav
    rand := rand
    SDL_BlitSurface := SDL_UpperBlit }

/-- The spec's scenario: eight 100x100 images, SDL2's blit. -/
def scenario (wav : List Nat) (rand : Nat → Nat) : Env :=
  sameSize { w := 100, h := 100 } wav rand

/-- An iteration with no pending event in a 640x480 window. -/
def idle : FrameInput :=
  { events := [], window_surface := { w := 640, h := 480 } }

/-- An iteration whose drain delivers one quit event, in a 640x480 window. -/
def quitInput : FrameInput :=
  { events := [SDL_Event.quit], window_surface := { w := 640, h := 480 } }

/-- The event is not a resize event. -/
def notResize : SDL_Event → Prop
  | SDL_Event.windowResized _ _ => False
  | _ => True

/-- The selected image is always the one chosen by the latest call of `rand`. -/
def imageFollowsRand (env : Env) (s : State) : Prop :=
  s.image_surface < 8 ∧ (s.rand_calls = 0 → s.image_surface = 0) ∧
    ∀ k, s.rand_calls = k + 1 → s.image_surface = env.rand k % 8

/-- The loop is running in the 640x480 window at speed 2 with the given
rectangle and directions. -/
def moving (s : State) (x y w h dx dy : Int) : Prop :=
  s.is_game_running = 1 ∧ s.SCREEN_WIDTH = 640 ∧ s.SCREEN_HEIGHT = 480 ∧ s.speed = 2 ∧
  s.rect_surface = { x := x, y := y, w := w, h := h } ∧ s.dir_x = dx ∧ s.dir_y = dy

/-- The position at which a rectangle of the given size turns at the far edge
of a window of the given extent: the room `bound - size`, rounded up to an
even number because the positions of the run are even. -/
def turn (bound size : Int) : Int :=
  (bound - size) + (bound - size) % 2

/-- Handling an event leaves directions, image, audio queue, speed, the count of
`rand` calls and the presented frames alone. -/
theorem handleEvent_keeps (s : State) (e : SDL_Event) :
    (handleEvent s e).dir_x = s.dir_x ∧ (handleEvent s e).dir_y = s.dir_y ∧
    (handleEvent s e).image_surface = s.image_surface ∧
    (handleEvent s e).audio_queue = s.audio_queue ∧
    (handleEvent s e).speed = s.speed ∧
    (handleEvent s e).rand_calls = s.rand_calls ∧
    (handleEvent s e).presented = s.presented := by
  cases e <;> simp [handleEvent]

/-- The event drain leaves directions, image, audio queue, speed, the count of
`rand` calls and the presented frames alone. -/
theorem pollEvents_keeps (events : List SDL_Event) (s : State) :
    (pollEvents s events).dir_x = s.dir_x ∧ (pollEvents s events).dir_y = s.dir_y ∧
    (pollEvents s events).image_surface = s.image_surface ∧
    (pollEvents s events).audio_queue = s.audio_queue ∧
    (pollEvents s events).speed = s.speed ∧
    (pollEvents s events).rand_calls = s.rand_calls ∧
    (pollEvents s events).presented = s.presented := by
  induction events generalizing s with
  | nil => simp [pollEvents]
  | cons e rest ih =>
    have h1 := handleEvent_keeps s e
    have h2 := ih (handleEvent s e)
    simp only [pollEvents, List.foldl_cons] at h2 ⊢
    obtain ⟨a1, a2, a3, a4, a5, a6, a7⟩ := h1
    obtain ⟨b1, b2, b3, b4, b5, b6, b7⟩ := h2
    exact ⟨b1.trans a1, b2.trans a2, b3.trans a3, b4.trans a4, b5.trans a5,
      b6.trans a6, b7.trans a7⟩

/-- The boundary check when the x condition holds (first branch). -/
theorem boundaryCheck_x (env : Env) (s : State) (hx : xCollision s) :
    boundaryCheck env s =
      playSound env (pickImage env { s with dir_x := s.dir_x * -1 }) := by
  simp [boundaryCheck, hx]

/-- The boundary check when only the y condition holds (second branch). -/
theorem boundaryCheck_y (env : Env) (s : State) (hx : ¬ xCollision s) (hy : yCollision s) :
    boundaryCheck env s =
      playSound env (pickImage env { s with dir_y := s.dir_y * -1 }) := by
  simp [boundaryCheck, hx, hy]

/-- The boundary check when neither condition holds. -/
theorem boundaryCheck_none (env : Env) (s : State) (hx : ¬ xCollision s)
    (hy : ¬ yCollision s) : boundaryCheck env s = s := by
  simp [boundaryCheck, hx, hy]

/-- Running the loop on two successive input sequences. -/
theorem mainLoop_append (env : Env) (l1 l2 : List FrameInput) (s : State) :
    mainLoop env (l1 ++ l2) s = mainLoop env l2 (mainLoop env l1 s) := by
  induction l1 generalizing s with
  | nil => simp [mainLoop]
  | cons inp rest ih =>
    by_cases h : s.is_game_running = 1
    · simp [mainLoop, h, ih]
    · cases l2 <;> simp [mainLoop, h]

/-- An invariant of the loop body, for iterations whose input satisfies `Q`,
holds in every state the loop reaches on such inputs. -/
theorem mainLoop_invariant (env : Env) (Q : FrameInput → Prop) (P : State → Prop)
    (hstep : ∀ inp s, Q inp → P s → P (frame env inp s)) :
    ∀ (inputs : List FrameInput) (s : State), (∀ inp ∈ inputs, Q inp) → P s →
      P (mainLoop env inputs s) := by
  intro inputs
  induction inputs with
  | nil => intro s _ hs; simpa [mainLoop] using hs
  | cons inp rest ih =>
    intro s hq hs
    by_cases h : s.is_game_running = 1
    · simp only [mainLoop, h, if_true]
      exact ih _ (fun i hi => hq i (List.mem_cons_of_mem _ hi))
        (hstep inp s (hq inp (List.mem_cons_self _ _)) hs)
    · simpa [mainLoop, h] using hs

/-- The boundary check leaves the running flag, the rectangle, the speed, the
recorded screen size and the presented frames alone. -/
theorem boundaryCheck_keeps (env : Env) (s : State) :
    (boundaryCheck env s).is_game_running = s.is_game_running ∧
    (boundaryCheck env s).rect_surface = s.rect_surface ∧
    (boundaryCheck env s).speed = s.speed ∧
    (boundaryCheck env s).SCREEN_WIDTH = s.SCREEN_WIDTH ∧
    (boundaryCheck env s).SCREEN_HEIGHT = s.SCREEN_HEIGHT ∧
    (boundaryCheck env s).presented = s.presented := by
  by_cases hx : xCollision s
  · simp [boundaryCheck_x env s hx, playSound, pickImage, SDL_PauseAudioDevice,
      SDL_QueueAudio, SDL_ClearQueuedAudio]
  · by_cases hy : yCollision s
    · simp [boundaryCheck_y env s hx hy, playSound, pickImage, SDL_PauseAudioDevice,
        SDL_QueueAudio, SDL_ClearQueuedAudio]
    · simp [boundaryCheck_none env s hx hy]

/-- Once the running flag is 0 the drain cannot set it again. -/
theorem pollEvents_stopped (events : List SDL_Event) (s : State)
    (h : s.is_game_running = 0) : (pollEvents s events).is_game_running = 0 := by
  induction events generalizing s with
  | nil => simpa [pollEvents] using h
  | cons e rest ih =>
    simp only [pollEvents, List.foldl_cons]
    apply ih
    cases e <;> simp [handleEvent, h]

/-- A drain that delivers a quit event leaves the running flag at 0. -/
theorem pollEvents_quit (events : List SDL_Event) (s : State)
    (h : SDL_Event.quit ∈ events) : (pollEvents s events).is_game_running = 0 := by
  induction events generalizing s with
  | nil => simp at h
  | cons e rest ih =>
    simp only [pollEvents, List.foldl_cons]
    rcases List.mem_cons.1 h with h1 | h1
    · subst h1
      exact pollEvents_stopped rest _ (by simp [handleEvent])
    · exact ih _ h1

/-- After the drain, the rest of the iteration does not touch the running flag. -/
theorem frame_running (env : Env) (inp : FrameInput) (s : State) :
    (frame env inp s).is_game_running = (pollEvents s inp.events).is_game_running := by
  have h := (boundaryCheck_keeps env (pollEvents s inp.events)).1
  simpa [frame, render, advance, updatePosition] using h

/-- The fields of the post-drain state that the rest of the iteration keeps. -/
theorem frame_fields (env : Env) (inp : FrameInput) (s : State) :
    (frame env inp s).dir_x = (boundaryCheck env (pollEvents s inp.events)).dir_x ∧
    (frame env inp s).dir_y = (boundaryCheck env (pollEvents s inp.events)).dir_y ∧
    (frame env inp s).image_surface =
      (boundaryCheck env (pollEvents s inp.events)).image_surface ∧
    (frame env inp s).audio_queue =
      (boundaryCheck env (pollEvents s inp.events)).audio_queue ∧
    (frame env inp s).rand_calls =
      (boundaryCheck env (pollEvents s inp.events)).rand_calls := by
  simp [frame, render, advance, updatePosition]

/-- The playback state after an iteration is the one left by the boundary check. -/
theorem frame_paused (env : Env) (inp : FrameInput) (s : State) :
    (frame env inp s).audio_paused =
      (boundaryCheck env (pollEvents s inp.events)).audio_paused := by
  simp [frame, render, advance, updatePosition]

/-- What an iteration that handles a collision does to image and audio. -/
theorem frame_collision (env : Env) (inp : FrameInput) (s : State)
    (h : xCollision (pollEvents s inp.events) ∨ yCollision (pollEvents s inp.events)) :
    (frame env inp s).image_surface = env.rand s.rand_calls % 8 ∧
    (frame env inp s).audio_queue = [env.wav_buffer] ∧
    (frame env inp s).audio_paused = false := by
  obtain ⟨_, _, _, _, _, k6, _⟩ := pollEvents_keeps inp.events s
  obtain ⟨_, _, f3, f4, _⟩ := frame_fields env inp s
  rw [f3, f4, frame_paused]
  by_cases hx : xCollision (pollEvents s inp.events)
  · rw [boundaryCheck_x env _ hx]
    simp [playSound, pickImage, SDL_PauseAudioDevice, SDL_QueueAudio,
      SDL_ClearQueuedAudio, k6]
  · have hy := h.resolve_left hx
    rw [boundaryCheck_y env _ hx hy]
    simp [playSound, pickImage, SDL_PauseAudioDevice, SDL_QueueAudio,
      SDL_ClearQueuedAudio, k6]

/-- What an iteration without a collision leaves alone. -/
theorem frame_no_collision (env : Env) (inp : FrameInput) (s : State)
    (hx : ¬ xCollision (pollEvents s inp.events))
    (hy : ¬ yCollision (pollEvents s inp.events)) :
    (frame env inp s).dir_x = s.dir_x ∧ (frame env inp s).dir_y = s.dir_y ∧
    (frame env inp s).image_surface = s.image_surface ∧
    (frame env inp s).audio_queue = s.audio_queue ∧
    (frame env inp s).audio_paused = (pollEvents s inp.events).audio_paused := by
  obtain ⟨k1, k2, k3, k4, _, _, _⟩ := pollEvents_keeps inp.events s
  obtain ⟨f1, f2, f3, f4, _⟩ := frame_fields env inp s
  rw [f1, f2, f3, f4, frame_paused, boundaryCheck_none env _ hx hy]
  exact ⟨k1, k2, k3, k4, rfl⟩

/-- An iteration keeps the selected image in step with the calls of `rand`. -/
theorem imageFollowsRand_frame (env : Env) (inp : FrameInput) (s : State)
    (h : imageFollowsRand env s) : imageFollowsRand env (frame env inp s) := by
  obtain ⟨_, _, k3, _, _, k6, _⟩ := pollEvents_keeps inp.events s
  obtain ⟨_, _, f3, _, f5⟩ := frame_fields env inp s
  unfold imageFollowsRand at h ⊢
  rw [f3, f5]
  by_cases hx : xCollision (pollEvents s inp.events)
  · rw [boundaryCheck_x env _ hx]
    simp only [playSound, pickImage, SDL_PauseAudioDevice, SDL_QueueAudio,
      SDL_ClearQueuedAudio, k6]
    refine ⟨Nat.mod_lt _ (by decide), by omega, ?_⟩
    intro k hk
    have : s.rand_calls = k := by omega
    rw [this]
  · by_cases hy : yCollision (pollEvents s inp.events)
    · rw [boundaryCheck_y env _ hx hy]
      simp only [playSound, pickImage, SDL_PauseAudioDevice, SDL_QueueAudio,
        SDL_ClearQueuedAudio, k6]
      refine ⟨Nat.mod_lt _ (by decide), by omega, ?_⟩
      intro k hk
      have : s.rand_calls = k := by omega
      rw [this]
    · rw [boundaryCheck_none env _ hx hy, k3, k6]
      exact h

/-- Every iteration presents exactly one frame. -/
theorem frame_presented (env : Env) (inp : FrameInput) (s : State) :
    (frame env inp s).presented =
      s.presented ++ [((frame env inp s).image_surface, (frame env inp s).rect_surface)] := by
  have h1 := (pollEvents_keeps inp.events s).2.2.2.2.2.2
  have h2 := (boundaryCheck_keeps env (pollEvents s inp.events)).2.2.2.2.2
  simp [frame, render, advance, updatePosition, h1, h2]

/-- Handling an event never writes `rect_surface.w` or `rect_surface.h`. -/
theorem handleEvent_size (s : State) (e : SDL_Event) :
    (handleEvent s e).rect_surface.w = s.rect_surface.w ∧
    (handleEvent s e).rect_surface.h = s.rect_surface.h := by
  cases e <;> simp [handleEvent]

/-- The event drain never writes `rect_surface.w` or `rect_surface.h`. -/
theorem pollEvents_size (events : List SDL_Event) (s : State) :
    (pollEvents s events).rect_surface.w = s.rect_surface.w ∧
    (pollEvents s events).rect_surface.h = s.rect_surface.h := by
  induction events generalizing s with
  | nil => simp [pollEvents]
  | cons e rest ih =>
    have h1 := handleEvent_size s e
    have h2 := ih (handleEvent s e)
    simp only [pollEvents, List.foldl_cons] at h2 ⊢
    exact ⟨h2.1.trans h1.1, h2.2.trans h1.2⟩

/-- The rectangle after the position update, before the blit. -/
theorem advance_rect (env : Env) (inp : FrameInput) (s : State) :
    (advance env inp s).rect_surface =
      { x := (pollEvents s inp.events).rect_surface.x + (frame env inp s).dir_x * s.speed
        y := (pollEvents s inp.events).rect_surface.y + (frame env inp s).dir_y * s.speed
        w := (pollEvents s inp.events).rect_surface.w
        h := (pollEvents s inp.events).rect_surface.h } := by
  obtain ⟨_, b2, b3, _, _, _⟩ := boundaryCheck_keeps env (pollEvents s inp.events)
  obtain ⟨f1, f2, _, _, _⟩ := frame_fields env inp s
  have k5 := (pollEvents_keeps inp.events s).2.2.2.2.1
  rw [f1, f2]
  simp [advance, updatePosition, b2, b3, k5]

/-- A drain without resize event leaves the rectangle and the recorded screen
size alone. -/
theorem pollEvents_notResize (events : List SDL_Event) (s : State)
    (h : ∀ e ∈ events, notResize e) :
    (pollEvents s events).rect_surface = s.rect_surface ∧
    (pollEvents s events).SCREEN_WIDTH = s.SCREEN_WIDTH ∧
    (pollEvents s events).SCREEN_HEIGHT = s.SCREEN_HEIGHT := by
  induction events generalizing s with
  | nil => simp [pollEvents]
  | cons e rest ih =>
    have h2 := ih (handleEvent s e) (fun e2 he2 => h e2 (List.mem_cons_of_mem _ he2))
    have h1 : (handleEvent s e).rect_surface = s.rect_surface ∧
        (handleEvent s e).SCREEN_WIDTH = s.SCREEN_WIDTH ∧
        (handleEvent s e).SCREEN_HEIGHT = s.SCREEN_HEIGHT := by
      have hn := h e (List.mem_cons_self _ _)
      cases e <;> simp [handleEvent, notResize] at hn ⊢
    simp only [pollEvents, List.foldl_cons] at h2 ⊢
    exact ⟨h2.1.trans h1.1, h2.2.1.trans h1.2.1, h2.2.2.trans h1.2.2⟩

/-- One iteration whose drain delivers no resize event, written out on the
fields that drive the motion, up to the position update. -/
theorem calm_frame (env : Env) (inp : FrameInput) (s : State)
    (hev : ∀ e ∈ inp.events, notResize e) :
    (frame env inp s).SCREEN_WIDTH = s.SCREEN_WIDTH ∧
    (frame env inp s).SCREEN_HEIGHT = s.SCREEN_HEIGHT ∧
    (frame env inp s).speed = s.speed ∧
    (frame env inp s).dir_x =
      (if s.rect_surface.x + s.rect_surface.w ≥ s.SCREEN_WIDTH ∨ s.rect_surface.x ≤ 0
        then -s.dir_x else s.dir_x) ∧
    (frame env inp s).dir_y =
      (if s.rect_surface.x + s.rect_surface.w ≥ s.SCREEN_WIDTH ∨ s.rect_surface.x ≤ 0
        then s.dir_y
        else if s.rect_surface.y + s.rect_surface.h ≥ s.SCREEN_HEIGHT ∨ s.rect_surface.y ≤ 0
          then -s.dir_y else s.dir_y) ∧
    (advance env inp s).rect_surface =
      { x := s.rect_surface.x + (frame env inp s).dir_x * s.speed
        y := s.rect_surface.y + (frame env inp s).dir_y * s.speed
        w := s.rect_surface.w
        h := s.rect_surface.h } := by
  obtain ⟨p1, p2, p3⟩ := pollEvents_notResize inp.events s hev
  obtain ⟨k1, k2, _, _, k5, _, _⟩ := pollEvents_keeps inp.events s
  obtain ⟨_, _, b3, b4, b5, _⟩ := boundaryCheck_keeps env
    (pollEvents s inp.events)
  obtain ⟨f1, f2, _, _, _⟩ := frame_fields env inp s
  have hxi : xCollision (pollEvents s inp.events) ↔
      (s.rect_surface.x + s.rect_surface.w ≥ s.SCREEN_WIDTH ∨ s.rect_surface.x ≤ 0) := by
    unfold xCollision
    rw [p1, p2]
  have hyi : yCollision (pollEvents s inp.events) ↔
      (s.rect_surface.y + s.rect_surface.h ≥ s.SCREEN_HEIGHT ∨ s.rect_surface.y ≤ 0) := by
    unfold yCollision
    rw [p1, p3]
  refine ⟨?_, ?_, ?_, ?_, ?_, ?_⟩
  · simp [frame, render, advance, updatePosition, b4, p2]
  · simp [frame, render, advance, updatePosition, b5, p3]
  · simp [frame, render, advance, updatePosition, b3, k5]
  · rw [f1]
    by_cases hx : xCollision (pollEvents s inp.events)
    · rw [if_pos (hxi.1 hx), boundaryCheck_x _ _ hx]
      simp [playSound, pickImage, SDL_PauseAudioDevice, SDL_QueueAudio,
        SDL_ClearQueuedAudio, k1]
    · rw [if_neg (fun h => hx (hxi.2 h))]
      by_cases hy : yCollision (pollEvents s inp.events)
      · rw [boundaryCheck_y _ _ hx hy]
        simp [playSound, pickImage, SDL_PauseAudioDevice, SDL_QueueAudio,
          SDL_ClearQueuedAudio, k1]
      · rw [boundaryCheck_none _ _ hx hy, k1]
  · rw [f2]
    by_cases hx : xCollision (pollEvents s inp.events)
    · rw [if_pos (hxi.1 hx), boundaryCheck_x _ _ hx]
      simp [playSound, pickImage, SDL_PauseAudioDevice, SDL_QueueAudio,
        SDL_ClearQueuedAudio, k2]
    · rw [if_neg (fun h => hx (hxi.2 h))]
      by_cases hy : yCollision (pollEvents s inp.events)
      · rw [if_pos (hyi.1 hy), boundaryCheck_y _ _ hx hy]
        simp [playSound, pickImage, SDL_PauseAudioDevice, SDL_QueueAudio,
          SDL_ClearQueuedAudio, k2]
      · rw [if_neg (fun h => hy (hyi.2 h)), boundaryCheck_none _ _ hx hy, k2]
  · rw [advance_rect, p1]

/-! ## The scenario: 100x100 images in the 640x480 window -/

/-- One iteration in the scenario (100x100 images, SDL2's blit, 640x480 window
surface, no resize event), written out on the fields that drive the motion. -/
theorem scenario_frame (wav : List Nat) (rand : Nat → Nat) (inp : FrameInput) (s : State)
    (hw : inp.window_surface = { w := 640, h := 480 })
    (hev : ∀ e ∈ inp.events, notResize e) :
    (frame (scenario wav rand) inp s).SCREEN_WIDTH = s.SCREEN_WIDTH ∧
    (frame (scenario wav rand) inp s).SCREEN_HEIGHT = s.SCREEN_HEIGHT ∧
    (frame (scenario wav rand) inp s).speed = s.speed ∧
    (frame (scenario wav rand) inp s).dir_x =
      (if s.rect_surface.x + s.rect_surface.w ≥ s.SCREEN_WIDTH ∨ s.rect_surface.x ≤ 0
        then -s.dir_x else s.dir_x) ∧
    (frame (scenario wav rand) inp s).dir_y =
      (if s.rect_surface.x + s.rect_surface.w ≥ s.SCREEN_WIDTH ∨ s.rect_surface.x ≤ 0
        then s.dir_y
        else if s.rect_surface.y + s.rect_surface.h ≥ s.SCREEN_HEIGHT ∨ s.rect_surface.y ≤ 0
          then -s.dir_y else s.dir_y) ∧
    (advance (scenario wav rand) inp s).rect_surface =
      { x := s.rect_surface.x + (frame (scenario wav rand) inp s).dir_x * s.speed
        y := s.rect_surface.y + (frame (scenario wav rand) inp s).dir_y * s.speed
        w := s.rect_surface.w
        h := s.rect_surface.h } ∧
    (frame (scenario wav rand) inp s).rect_surface =
      SDL_UpperBlit { w := 100, h := 100 } { w := 640, h := 480 }
        (advance (scenario wav rand) inp s).rect_surface := by
  obtain ⟨e1, e2, e3, e4, e5, e6⟩ := calm_frame (scenario wav rand) inp s hev
  refine ⟨e1, e2, e3, e4, e5, e6, ?_⟩
  simp [frame, render, scenario, sameSize, hw]

/-- SDL2's blit of a 100x100 image that lies inside the 640x480 window clips
nothing. -/
theorem blit_inside (x y w h : Int) (h1 : 0 ≤ x) (h2 : x ≤ 540) (h3 : 0 ≤ y) (h4 : y ≤ 380) :
    SDL_UpperBlit { w := 100, h := 100 } { w := 640, h := 480 } { x := x, y := y, w := w, h := h }
      = { x := x, y := y, w := 100, h := 100 } := by
  have a1 : ¬ (0 - x > 0) := by omega
  have a2 : ¬ (x + 100 - 0 - 640 > 0) := by omega
  have a3 : ¬ (0 - y > 0) := by omega
  have a4 : ¬ (y + 100 - 0 - 480 > 0) := by omega
  simp only [SDL_UpperBlit, if_neg a1, if_neg a2, if_neg a3, if_neg a4]
  simp

/-- An idle iteration delivers no resize event. -/
theorem idle_notResize : ∀ e ∈ idle.events, notResize e := by
  intro e he
  simp [idle] at he

/-- One idle iteration of the scenario on a running loop, written out. -/
theorem moving_step (wav : List Nat) (rand : Nat → Nat) (s : State) (x y w h dx dy : Int)
    (hm : moving s x y w h dx dy) :
    moving (frame (scenario wav rand) idle s)
      (SDL_UpperBlit { w := 100, h := 100 } { w := 640, h := 480 }
        { x := x + (if x + w ≥ 640 ∨ x ≤ 0 then -dx else dx) * 2
          y := y + (if x + w ≥ 640 ∨ x ≤ 0 then dy
            else if y + h ≥ 480 ∨ y ≤ 0 then -dy else dy) * 2
          w := w, h := h }).x
      (SDL_UpperBlit { w := 100, h := 100 } { w := 640, h := 480 }
        { x := x + (if x + w ≥ 640 ∨ x ≤ 0 then -dx else dx) * 2
          y := y + (if x + w ≥ 640 ∨ x ≤ 0 then dy
            else if y + h ≥ 480 ∨ y ≤ 0 then -dy else dy) * 2
          w := w, h := h }).y
      (SDL_UpperBlit { w := 100, h := 100 } { w := 640, h := 480 }
        { x := x + (if x + w ≥ 640 ∨ x ≤ 0 then -dx else dx) * 2
          y := y + (if x + w ≥ 640 ∨ x ≤ 0 then dy
            else if y + h ≥ 480 ∨ y ≤ 0 then -dy else dy) * 2
          w := w, h := h }).w
      (SDL_UpperBlit { w := 100, h := 100 } { w := 640, h := 480 }
        { x := x + (if x + w ≥ 640 ∨ x ≤ 0 then -dx else dx) * 2
          y := y + (if x + w ≥ 640 ∨ x ≤ 0 then dy
            else if y + h ≥ 480 ∨ y ≤ 0 then -dy else dy) * 2
          w := w, h := h }).h
      (if x + w ≥ 640 ∨ x ≤ 0 then -dx else dx)
      (if x + w ≥ 640 ∨ x ≤ 0 then dy else if y + h ≥ 480 ∨ y ≤ 0 then -dy else dy) := by
  obtain ⟨m1, m2, m3, m4, m5, m6, m7⟩ := hm
  obtain ⟨e1, e2, e3, e4, e5, e6, e7⟩ :=
    scenario_frame wav rand idle s rfl idle_notResize
  rw [e6, e4, e5] at e7
  simp only [m2, m3, m4, m5, m6, m7] at e4 e5 e7
  refine ⟨?_, e1.trans m2, e2.trans m3, e3.trans m4, ?_, e4, e5⟩
  · rw [frame_running]
    simpa [idle, pollEvents] using m1
  · rw [e7]


/-- One more idle iteration after `n` of them, while the loop is running. -/
theorem idle_run_succ (env : Env) (n : Nat) (s : State)
    (h : (mainLoop env (List.replicate n idle) s).is_game_running = 1) :
    mainLoop env (List.replicate (n + 1) idle) s =
      frame env idle (mainLoop env (List.replicate n idle) s) := by
  rw [List.replicate_succ', mainLoop_append]
  simp [mainLoop, h]

/-- The motion lemma along a run of idle iterations. -/
theorem moving_run_succ (wav : List Nat) (rand : Nat → Nat) (s0 : State) (n : Nat)
    (x y w h dx dy : Int)
    (hm : moving (mainLoop (scenario wav rand) (List.replicate n idle) s0) x y w h dx dy) :
    moving (mainLoop (scenario wav rand) (List.replicate (n + 1) idle) s0)
      (SDL_UpperBlit { w := 100, h := 100 } { w := 640, h := 480 }
        { x := x + (if x + w ≥ 640 ∨ x ≤ 0 then -dx else dx) * 2
          y := y + (if x + w ≥ 640 ∨ x ≤ 0 then dy
            else if y + h ≥ 480 ∨ y ≤ 0 then -dy else dy) * 2
          w := w, h := h }).x
      (SDL_UpperBlit { w := 100, h := 100 } { w := 640, h := 480 }
        { x := x + (if x + w ≥ 640 ∨ x ≤ 0 then -dx else dx) * 2
          y := y + (if x + w ≥ 640 ∨ x ≤ 0 then dy
            else if y + h ≥ 480 ∨ y ≤ 0 then -dy else dy) * 2
          w := w, h := h }).y
      (SDL_UpperBlit { w := 100, h := 100 } { w := 640, h := 480 }
        { x := x + (if x + w ≥ 640 ∨ x ≤ 0 then -dx else dx) * 2
          y := y + (if x + w ≥ 640 ∨ x ≤ 0 then dy
            else if y + h ≥ 480 ∨ y ≤ 0 then -dy else dy) * 2
          w := w, h := h }).w
      (SDL_UpperBlit { w := 100, h := 100 } { w := 640, h := 480 }
        { x := x + (if x + w ≥ 640 ∨ x ≤ 0 then -dx else dx) * 2
          y := y + (if x + w ≥ 640 ∨ x ≤ 0 then dy
            else if y + h ≥ 480 ∨ y ≤ 0 then -dy else dy) * 2
          w := w, h := h }).h
      (if x + w ≥ 640 ∨ x ≤ 0 then -dx else dx)
      (if x + w ≥ 640 ∨ x ≤ 0 then dy else if y + h ≥ 480 ∨ y ≤ 0 then -dy else dy) := by
  rw [idle_run_succ _ _ _ hm.1]
  exact moving_step wav rand _ x y w h dx dy hm

/-- The first three iterations of the scenario: two x collisions at the left
edge, then a y collision at the top edge. -/
theorem run_start (wav : List Nat) (rand : Nat → Nat) (w0 h0 : Int) :
    moving (mainLoop (scenario wav rand) (List.replicate 3 idle) (init w0 h0))
      4 2 100 100 1 1 := by
  have g0 : moving (mainLoop (scenario wav rand) (List.replicate 0 idle) (init w0 h0))
      0 0 w0 h0 1 (-1) := by
    simp [moving, init, mainLoop]
  have g1 : moving (mainLoop (scenario wav rand) (List.replicate 1 idle) (init w0 h0))
      0 0 98 98 (-1) (-1) := by
    have h := moving_run_succ wav rand _ 0 _ _ _ _ _ _ g0
    simpa [SDL_UpperBlit] using h
  have g2 : moving (mainLoop (scenario wav rand) (List.replicate 2 idle) (init w0 h0))
      2 0 100 98 1 (-1) := by
    have h := moving_run_succ wav rand _ 1 _ _ _ _ _ _ g1
    simpa [SDL_UpperBlit] using h
  have h := moving_run_succ wav rand _ 2 _ _ _ _ _ _ g2
  simpa [SDL_UpperBlit] using h

/-- Iterations 3 to 192: the rectangle moves down and to the right. -/
theorem run_phase_a (wav : List Nat) (rand : Nat → Nat) (w0 h0 : Int) (k : Nat)
    (hk : k ≤ 189) :
    moving (mainLoop (scenario wav rand) (List.replicate (k + 3) idle) (init w0 h0))
      (2 * (k : Int) + 4) (2 * (k : Int) + 2) 100 100 1 1 := by
  induction k with
  | zero => simpa using run_start wav rand w0 h0
  | succ k ih =>
    have h := moving_run_succ wav rand _ _ _ _ _ _ _ _ (ih (by omega))
    have c1 : ¬ (2 * (k : Int) + 4 + 100 ≥ 640 ∨ 2 * (k : Int) + 4 ≤ 0) := by omega
    have c2 : ¬ (2 * (k : Int) + 2 + 100 ≥ 480 ∨ 2 * (k : Int) + 2 ≤ 0) := by omega
    rw [if_neg c1, if_neg c1, if_neg c2,
      blit_inside _ _ _ _ (by omega) (by omega) (by omega) (by omega)] at h
    have e1 : 2 * ((k + 1 : Nat) : Int) + 4 = 2 * (k : Int) + 4 + 1 * 2 := by push_cast; ring
    have e2 : 2 * ((k + 1 : Nat) : Int) + 2 = 2 * (k : Int) + 2 + 1 * 2 := by push_cast; ring
    rw [e1, e2]
    exact h

/-- Iteration 193 flips `dir_y` at the bottom edge; iterations 193 to 271 move
up and to the right. -/
theorem run_phase_b (wav : List Nat) (rand : Nat → Nat) (w0 h0 : Int) (j : Nat)
    (hj : j ≤ 78) :
    moving (mainLoop (scenario wav rand) (List.replicate (j + 193) idle) (init w0 h0))
      (2 * (j : Int) + 384) (378 - 2 * (j : Int)) 100 100 1 (-1) := by
  induction j with
  | zero =>
    have h := moving_run_succ wav rand _ _ _ _ _ _ _ _ (run_phase_a wav rand w0 h0 189 (by omega))
    simp [SDL_UpperBlit] at h
    simpa using h
  | succ j ih =>
    have h := moving_run_succ wav rand _ _ _ _ _ _ _ _ (ih (by omega))
    have c1 : ¬ (2 * (j : Int) + 384 + 100 ≥ 640 ∨ 2 * (j : Int) + 384 ≤ 0) := by omega
    have c2 : ¬ (378 - 2 * (j : Int) + 100 ≥ 480 ∨ 378 - 2 * (j : Int) ≤ 0) := by omega
    rw [if_neg c1, if_neg c1, if_neg c2,
      blit_inside _ _ _ _ (by omega) (by omega) (by omega) (by omega)] at h
    have e1 : 2 * ((j + 1 : Nat) : Int) + 384 = 2 * (j : Int) + 384 + 1 * 2 := by
      push_cast; ring
    have e2 : 378 - 2 * ((j + 1 : Nat) : Int) = 378 - 2 * (j : Int) + -1 * 2 := by
      push_cast; ring
    rw [e1, e2]
    exact h

/-! ## Runs with other image sizes -/

/-- Image sizes that are multiples of 4 qualify, with `m = 4`. -/
theorem multiples_of_four_qualify (iw ih : Int) (hw : iw % 4 = 0) (hh : ih % 4 = 0) :
    (4 : Int) ∣ turn 640 iw ∧ (4 : Int) ∣ turn 480 ih ∧ ¬ ((4 : Int) ∣ 2) := by
  unfold turn
  refine ⟨?_, ?_, by decide⟩ <;> omega

/-! ## The claims -/

/-- C1: the boundary check does exactly one of three things: on an x collision
it negates `dir_x` and leaves `dir_y`; otherwise on a y collision it negates
`dir_y` and leaves `dir_x`; otherwise it changes neither.  In particular when
the x condition and the y condition both hold, only `dir_x` is negated. -/
theorem C1_at_most_one_flip (env : Env) (s : State) :
    ((xCollision s ∧ (boundaryCheck env s).dir_x = -s.dir_x ∧
        (boundaryCheck env s).dir_y = s.dir_y) ∨
      (¬ xCollision s ∧ yCollision s ∧ (boundaryCheck env s).dir_y = -s.dir_y ∧
        (boundaryCheck env s).dir_x = s.dir_x) ∨
      (¬ xCollision s ∧ ¬ yCollision s ∧ (boundaryCheck env s).dir_x = s.dir_x ∧
        (boundaryCheck env s).dir_y = s.dir_y)) ∧
    (((s.rect_surface.x + s.rect_surface.w ≥ s.SCREEN_WIDTH ∨ s.rect_surface.x ≤ 0) ∧
        (s.rect_surface.y + s.rect_surface.h ≥ s.SCREEN_HEIGHT ∨ s.rect_surface.y ≤ 0)) →
      (boundaryCheck env s).dir_x = -s.dir_x ∧ (boundaryCheck env s).dir_y = s.dir_y) := by
  constructor
  · by_cases hx : xCollision s
    · left
      rw [boundaryCheck_x env s hx]
      simp [hx, playSound, pickImage, SDL_PauseAudioDevice, SDL_QueueAudio,
        SDL_ClearQueuedAudio]
    · by_cases hy : yCollision s
      · right; left
        rw [boundaryCheck_y env s hx hy]
        simp [hx, hy, playSound, pickImage, SDL_PauseAudioDevice, SDL_QueueAudio,
          SDL_ClearQueuedAudio]
      · right; right
        rw [boundaryCheck_none env s hx hy]
        simp [hx, hy]
  · rintro ⟨hx, _⟩
    rw [boundaryCheck_x env s hx]
    simp [playSound, pickImage, SDL_PauseAudioDevice, SDL_QueueAudio, SDL_ClearQueuedAudio]

/-- C1 at the initial state, where `x <= 0` and `y <= 0` both hold. -/
theorem C1_at_most_one_flip_witness :
    (boundaryCheck (scenario [] (fun _ => 0)) (init 100 100)).dir_x = -1 ∧
    (boundaryCheck (scenario [] (fun _ => 0)) (init 100 100)).dir_y = -1 :=
  (C1_at_most_one_flip (scenario [] (fun _ => 0)) (init 100 100)).2
    ⟨Or.inr (by decide), Or.inr (by decide)⟩

/-- C2: in every iteration the collision test reads the position as it is
before the position update (the state left by the event drain) and is
asymmetric: `dir_x` is negated exactly when `x + w >= width` or `x <= 0`;
`dir_y` is negated exactly when that x condition is false and
`y + h >= height` or `y <= 0`.  When either happens a new image is selected
(`images[rand() % 8]`) and the queue is left holding the collision sound, with
playback started; when neither condition holds, the directions, the selected
image and the audio queue are the same after the iteration as before it. -/
theorem C2_collision_test (env : Env) (inp : FrameInput) (s : State) :
    ((frame env inp s).dir_x =
        if ((pollEvents s inp.events).rect_surface.x + (pollEvents s inp.events).rect_surface.w
              ≥ (pollEvents s inp.events).SCREEN_WIDTH
            ∨ (pollEvents s inp.events).rect_surface.x ≤ 0)
        then -s.dir_x else s.dir_x) ∧
    ((frame env inp s).dir_y =
        if (¬ ((pollEvents s inp.events).rect_surface.x
                + (pollEvents s inp.events).rect_surface.w
                ≥ (pollEvents s inp.events).SCREEN_WIDTH
              ∨ (pollEvents s inp.events).rect_surface.x ≤ 0)
            ∧ ((pollEvents s inp.events).rect_surface.y
                + (pollEvents s inp.events).rect_surface.h
                ≥ (pollEvents s inp.events).SCREEN_HEIGHT
              ∨ (pollEvents s inp.events).rect_surface.y ≤ 0))
        then -s.dir_y else s.dir_y) ∧
    ((xCollision (pollEvents s inp.events) ∨ yCollision (pollEvents s inp.events)) →
      (frame env inp s).image_surface = env.rand s.rand_calls % 8 ∧
      (frame env inp s).audio_queue = [env.wav_buffer] ∧
      (frame env inp s).audio_paused = false) ∧
    ((¬ xCollision (pollEvents s inp.events) ∧ ¬ yCollision (pollEvents s inp.events)) →
      (frame env inp s).dir_x = s.dir_x ∧ (frame env inp s).dir_y = s.dir_y ∧
      (frame env inp s).image_surface = s.image_surface ∧
      (frame env inp s).audio_queue = s.audio_queue ∧
      (frame env inp s).audio_paused = (pollEvents s inp.events).audio_paused) := by
  obtain ⟨k1, k2, _, _, _, _, _⟩ := pollEvents_keeps inp.events s
  obtain ⟨f1, f2, _, _, _⟩ := frame_fields env inp s
  refine ⟨?_, ?_, frame_collision env inp s, fun h => frame_no_collision env inp s h.1 h.2⟩
  · by_cases hx : xCollision (pollEvents s inp.events) <;> have hx2 := hx <;>
      unfold xCollision at hx2
    · rw [if_pos hx2, f1, boundaryCheck_x env _ hx]
      simp [playSound, pickImage, SDL_PauseAudioDevice, SDL_QueueAudio,
        SDL_ClearQueuedAudio, k1]
    · rw [if_neg hx2, f1]
      by_cases hy : yCollision (pollEvents s inp.events)
      · rw [boundaryCheck_y env _ hx hy]
        simp [playSound, pickImage, SDL_PauseAudioDevice, SDL_QueueAudio,
          SDL_ClearQueuedAudio, k1]
      · rw [boundaryCheck_none env _ hx hy, k1]
  · by_cases hx : xCollision (pollEvents s inp.events) <;> have hx2 := hx <;>
      unfold xCollision at hx2
    · rw [if_neg (fun h => h.1 hx2), f2, boundaryCheck_x env _ hx]
      simp [playSound, pickImage, SDL_PauseAudioDevice, SDL_QueueAudio,
        SDL_ClearQueuedAudio, k2]
    · by_cases hy : yCollision (pollEvents s inp.events) <;> have hy2 := hy <;>
        unfold yCollision at hy2
      · rw [if_pos ⟨hx2, hy2⟩, f2, boundaryCheck_y env _ hx hy]
        simp [playSound, pickImage, SDL_PauseAudioDevice, SDL_QueueAudio,
          SDL_ClearQueuedAudio, k2]
      · rw [if_neg (fun h => hy2 h.2), f2, boundaryCheck_none env _ hx hy, k2]

/-- C2 at the first iteration of the program, where `x <= 0` holds. -/
theorem C2_collision_test_witness :
    (frame (scenario [7] (fun _ => 13)) idle (init 100 100)).image_surface = 13 % 8 ∧
    (frame (scenario [7] (fun _ => 13)) idle (init 100 100)).audio_queue = [[7]] ∧
    (frame (scenario [7] (fun _ => 13)) idle (init 100 100)).audio_paused = false :=
  (C2_collision_test (scenario [7] (fun _ => 13)) idle (init 100 100)).2.2.1
    (Or.inl (Or.inr (by decide)))

/-- C3: when the x boundary condition holds in the state the boundary check
sees, `dir_x` is negated once by the check and the position update of the same
iteration uses the negated direction: the new x is `x - dir_x * speed` for the
`dir_x` held before the iteration.  In every iteration the position after the
update (line 215) is `(x + dir_x' * speed, y + dir_y' * speed)` for the
directions `dir_x'`, `dir_y'` left by the boundary check, which are the
directions the iteration ends with. -/
theorem C3_move_with_flipped_direction (env : Env) (inp : FrameInput) (s : State) :
    (((pollEvents s inp.events).rect_surface.x ≤ 0 ∨
        (pollEvents s inp.events).rect_surface.x + (pollEvents s inp.events).rect_surface.w
          ≥ (pollEvents s inp.events).SCREEN_WIDTH) →
      (boundaryCheck env (pollEvents s inp.events)).dir_x = -s.dir_x ∧
      (frame env inp s).dir_x = -s.dir_x ∧
      (advance env inp s).rect_surface.x =
        (pollEvents s inp.events).rect_surface.x - s.dir_x * s.speed) ∧
    (advance env inp s).rect_surface.x =
      (pollEvents s inp.events).rect_surface.x + (frame env inp s).dir_x * s.speed ∧
    (advance env inp s).rect_surface.y =
      (pollEvents s inp.events).rect_surface.y + (frame env inp s).dir_y * s.speed ∧
    (frame env inp s).dir_x = (boundaryCheck env (pollEvents s inp.events)).dir_x ∧
    (frame env inp s).dir_y = (boundaryCheck env (pollEvents s inp.events)).dir_y := by
  obtain ⟨k1, k2, _, _, k5, _, _⟩ := pollEvents_keeps inp.events s
  refine ⟨?_, ?_, ?_, ?_, ?_⟩
  · intro h
    have hx : xCollision (pollEvents s inp.events) := by
      rcases h with h | h
      · exact Or.inr h
      · exact Or.inl h
    simp [frame, render, advance, updatePosition, boundaryCheck_x env _ hx, playSound,
      pickImage, SDL_PauseAudioDevice, SDL_QueueAudio, SDL_ClearQueuedAudio, k1, k5]
    ring
  all_goals
    by_cases hx : xCollision (pollEvents s inp.events)
    · simp [frame, render, advance, updatePosition, boundaryCheck_x env _ hx, playSound,
        pickImage, SDL_PauseAudioDevice, SDL_QueueAudio, SDL_ClearQueuedAudio, k5]
    · by_cases hy : yCollision (pollEvents s inp.events)
      · simp [frame, render, advance, updatePosition, boundaryCheck_y env _ hx hy, playSound,
          pickImage, SDL_PauseAudioDevice, SDL_QueueAudio, SDL_ClearQueuedAudio, k5]
      · simp [frame, render, advance, updatePosition, boundaryCheck_none env _ hx hy, k5]

/-- C3 at the first iteration of the program: `x = 0`, `dir_x = 1`, `speed = 2`,
and the update moves the rectangle to `x = -2`. -/
theorem C3_move_with_flipped_direction_witness :
    (boundaryCheck (scenario [] (fun _ => 0))
        (pollEvents (init 100 100) idle.events)).dir_x = -1 ∧
    (frame (scenario [] (fun _ => 0)) idle (init 100 100)).dir_x = -1 ∧
    (advance (scenario [] (fun _ => 0)) idle (init 100 100)).rect_surface.x = 0 - 1 * 2 :=
  (C3_move_with_flipped_direction (scenario [] (fun _ => 0)) idle (init 100 100)).1
    (Or.inl (by decide))

/-- C4: from the initial state (position (0,0), `dir_x = 1`, `dir_y = -1`,
speed 2, whatever `rect_surface.w` and `.h` hold at first) in the 640x480
window with 100x100 images and no input event, the loop is still running
after 271 iterations with the rectangle at x = 540 and `dir_x = 1`; the
boundary check of iteration 272 sees `x + 100 >= 640`, and in that iteration
`dir_x` becomes -1, the image index `rand() % 8`, which is below 8, is
selected, and the audio queue is cleared and holds the collision sound, with
playback started. -/
theorem C4_end_to_end (wav : List Nat) (rand : Nat → Nat) (w0 h0 : Int) :
    (init w0 h0).rect_surface.x = 0 ∧ (init w0 h0).rect_surface.y = 0 ∧
    (init w0 h0).dir_x = 1 ∧ (init w0 h0).dir_y = -1 ∧ (init w0 h0).speed = 2 ∧
    (init w0 h0).SCREEN_WIDTH = 640 ∧ (init w0 h0).SCREEN_HEIGHT = 480 ∧
    (mainLoop (scenario wav rand) (List.replicate 271 idle) (init w0 h0)).is_game_running = 1 ∧
    (mainLoop (scenario wav rand) (List.replicate 271 idle) (init w0 h0)).rect_surface =
      { x := 540, y := 222, w := 100, h := 100 } ∧
    (mainLoop (scenario wav rand) (List.replicate 271 idle) (init w0 h0)).dir_x = 1 ∧
    (mainLoop (scenario wav rand) (List.replicate 271 idle) (init w0 h0)).rect_surface.x + 100
      ≥ (mainLoop (scenario wav rand) (List.replicate 271 idle) (init w0 h0)).SCREEN_WIDTH ∧
    xCollision (pollEvents
      (mainLoop (scenario wav rand) (List.replicate 271 idle) (init w0 h0)) idle.events) ∧
    mainLoop (scenario wav rand) (List.replicate 272 idle) (init w0 h0) =
      frame (scenario wav rand) idle
        (mainLoop (scenario wav rand) (List.replicate 271 idle) (init w0 h0)) ∧
    (mainLoop (scenario wav rand) (List.replicate 272 idle) (init w0 h0)).dir_x = -1 ∧
    (mainLoop (scenario wav rand) (List.replicate 272 idle) (init w0 h0)).image_surface =
      rand (mainLoop (scenario wav rand) (List.replicate 271 idle) (init w0 h0)).rand_calls
        % 8 ∧
    (mainLoop (scenario wav rand) (List.replicate 272 idle) (init w0 h0)).image_surface < 8 ∧
    (mainLoop (scenario wav rand) (List.replicate 272 idle) (init w0 h0)).audio_queue = [wav] ∧
    (mainLoop (scenario wav rand) (List.replicate 272 idle) (init w0 h0)).audio_paused
      = false := by
  have hm := run_phase_b wav rand w0 h0 78 (by omega)
  have hm2 := moving_run_succ wav rand _ _ _ _ _ _ _ _ hm
  have hs := idle_run_succ (scenario wav rand) (78 + 193) (init w0 h0) hm.1
  have n1 : 78 + 193 = 271 := rfl
  have n2 : 78 + 193 + 1 = 272 := rfl
  rw [n1] at hm hm2 hs
  rw [n2] at hm2 hs
  generalize mainLoop (scenario wav rand) (List.replicate 271 idle) (init w0 h0) = S at *
  generalize mainLoop (scenario wav rand) (List.replicate 272 idle) (init w0 h0) = T at *
  norm_num at hm
  norm_num [SDL_UpperBlit] at hm2
  obtain ⟨m1, m2, m3, m4, m5, m6, m7⟩ := hm
  have hp : pollEvents S idle.events = S := rfl
  have hx : xCollision (pollEvents S idle.events) := by
    rw [hp]
    left
    rw [m5, m2]
    decide
  have hc := frame_collision (scenario wav rand) idle S (Or.inl hx)
  rw [← hs] at hc
  refine ⟨rfl, rfl, rfl, rfl, rfl, rfl, rfl, m1, m5, m6, ?_, hx, hs, hm2.2.2.2.2.2.1, hc.1, ?_,
    hc.2.1, hc.2.2⟩
  · rw [m5, m2]
    decide
  · rw [hc.1]
    exact Nat.mod_lt _ (by decide)

/-- C5 as stated fails: at the first iteration of the program with a quit event
pending, the drain sees the quit event (the flag becomes 0), and the same
iteration still moves the rectangle from (0,0) to (-2,-2), blits the image and
presents one frame. -/
theorem C5_frame_rendered_after_quit :
    SDL_Event.quit ∈ quitInput.events ∧
    (pollEvents (init 100 100) quitInput.events).is_game_running = 0 ∧
    (init 100 100).presented = [] ∧
    (frame (scenario [] (fun _ => 13)) quitInput (init 100 100)).presented =
      [(5, { x := 0, y := 0, w := 98, h := 98 })] ∧
    (pollEvents (init 100 100) quitInput.events).rect_surface =
      { x := 0, y := 0, w := 100, h := 100 } ∧
    (advance (scenario [] (fun _ => 13)) quitInput (init 100 100)).rect_surface =
      { x := -2, y := -2, w := 100, h := 100 } := by
  decide

/-- C5 (as amended): a quit event seen by the drain sets the running flag to 0;
the iteration that drained it is still completed, with its position update,
one blit and one window present; the loop then exits at its next test of the
flag, whatever input is pending, so no later iteration runs. -/
theorem C5_quit_ends_loop_after_iteration (env : Env) (inp : FrameInput)
    (rest : List FrameInput) (s : State) (hrun : s.is_game_running = 1)
    (hq : SDL_Event.quit ∈ inp.events) :
    (pollEvents s inp.events).is_game_running = 0 ∧
    (frame env inp s).is_game_running = 0 ∧
    mainLoop env (inp :: rest) s = frame env inp s ∧
    (frame env inp s).presented =
      s.presented ++ [((frame env inp s).image_surface, (frame env inp s).rect_surface)] ∧
    (advance env inp s).rect_surface.x =
      (pollEvents s inp.events).rect_surface.x + (frame env inp s).dir_x * s.speed ∧
    (advance env inp s).rect_surface.y =
      (pollEvents s inp.events).rect_surface.y + (frame env inp s).dir_y * s.speed := by
  have h0 := pollEvents_quit inp.events s hq
  have h1 : (frame env inp s).is_game_running = 0 := by rw [frame_running, h0]
  refine ⟨h0, h1, ?_, frame_presented env inp s, ?_, ?_⟩
  · cases rest with
    | nil => simp [mainLoop, hrun]
    | cons i r => simp [mainLoop, hrun, h1]
  · rw [advance_rect]
  · rw [advance_rect]

/-- C5 (as amended) at the first iteration of the program. -/
theorem C5_quit_ends_loop_after_iteration_witness :
    (pollEvents (init 100 100) quitInput.events).is_game_running = 0 ∧
    (frame (scenario [] (fun _ => 13)) quitInput (init 100 100)).is_game_running = 0 ∧
    mainLoop (scenario [] (fun _ => 13)) (quitInput :: [idle, idle]) (init 100 100) =
      frame (scenario [] (fun _ => 13)) quitInput (init 100 100) ∧
    (frame (scenario [] (fun _ => 13)) quitInput (init 100 100)).presented =
      (init 100 100).presented ++
        [((frame (scenario [] (fun _ => 13)) quitInput (init 100 100)).image_surface,
          (frame (scenario [] (fun _ => 13)) quitInput (init 100 100)).rect_surface)] ∧
    (advance (scenario [] (fun _ => 13)) quitInput (init 100 100)).rect_surface.x =
      (pollEvents (init 100 100) quitInput.events).rect_surface.x +
        (frame (scenario [] (fun _ => 13)) quitInput (init 100 100)).dir_x *
          (init 100 100).speed ∧
    (advance (scenario [] (fun _ => 13)) quitInput (init 100 100)).rect_surface.y =
      (pollEvents (init 100 100) quitInput.events).rect_surface.y +
        (frame (scenario [] (fun _ => 13)) quitInput (init 100 100)).dir_y *
          (init 100 100).speed :=
  C5_quit_ends_loop_after_iteration (scenario [] (fun _ => 13)) quitInput [idle, idle]
    (init 100 100) (by decide) (by decide)

/-- C6: handling a resize event sets the position to (0,0) and the recorded
screen width and height to the size `SDL_GetWindowSize` reports, whatever the
position was before; nothing else changes. -/
theorem C6_resize_resets_position (s : State) (new_w new_h : Int) :
    (handleEvent s (SDL_Event.windowResized new_w new_h)).rect_surface.x = 0 ∧
    (handleEvent s (SDL_Event.windowResized new_w new_h)).rect_surface.y = 0 ∧
    (handleEvent s (SDL_Event.windowResized new_w new_h)).SCREEN_WIDTH = new_w ∧
    (handleEvent s (SDL_Event.windowResized new_w new_h)).SCREEN_HEIGHT = new_h ∧
    handleEvent s (SDL_Event.windowResized new_w new_h) =
      { s with
        SCREEN_WIDTH := new_w
        SCREEN_HEIGHT := new_h
        rect_surface := { x := 0, y := 0, w := s.rect_surface.w, h := s.rect_surface.h } } := by
  simp [handleEvent]

/-- C7: whenever the boundary check handles a collision, the image index it
selects is `r % 8` for the value `r` that `rand` returned, so it is below 8, a
valid index into the 8-element array; it depends on `r` alone (two collisions
that get the same `r`, in whatever states, select the same index); and along a
run the image selected by the (k+1)-th call of `rand` is `rand k % 8`, so a
fixed sequence of generator outputs gives a fixed sequence of indices. -/
theorem C7_image_index (env : Env) (s : State) (inputs : List FrameInput) (w0 h0 : Int) :
    ((xCollision s ∨ yCollision s) →
      (boundaryCheck env s).image_surface = env.rand s.rand_calls % 8 ∧
      (boundaryCheck env s).image_surface < 8 ∧
      (boundaryCheck env s).rand_calls = s.rand_calls + 1) ∧
    (∀ (env2 : Env) (s2 : State), (xCollision s ∨ yCollision s) →
      (xCollision s2 ∨ yCollision s2) → env.rand s.rand_calls = env2.rand s2.rand_calls →
      (boundaryCheck env s).image_surface = (boundaryCheck env2 s2).image_surface) ∧
    (mainLoop env inputs (init w0 h0)).image_surface < 8 ∧
    (∀ k, (mainLoop env inputs (init w0 h0)).rand_calls = k + 1 →
      (mainLoop env inputs (init w0 h0)).image_surface = env.rand k % 8) := by
  have key : ∀ (e : Env) (t : State), (xCollision t ∨ yCollision t) →
      (boundaryCheck e t).image_surface = e.rand t.rand_calls % 8 ∧
      (boundaryCheck e t).rand_calls = t.rand_calls + 1 := by
    intro e t h
    by_cases hx : xCollision t
    · simp [boundaryCheck_x e t hx, playSound, pickImage, SDL_PauseAudioDevice,
        SDL_QueueAudio, SDL_ClearQueuedAudio]
    · have hy : yCollision t := h.resolve_left hx
      simp [boundaryCheck_y e t hx hy, playSound, pickImage, SDL_PauseAudioDevice,
        SDL_QueueAudio, SDL_ClearQueuedAudio]
  have hinv : imageFollowsRand env (mainLoop env inputs (init w0 h0)) := by
    apply mainLoop_invariant env (fun _ => True) (imageFollowsRand env)
    · intro inp t _ ht
      exact imageFollowsRand_frame env inp t ht
    · intro _ _
      trivial
    · unfold imageFollowsRand
      simp [init]
  refine ⟨?_, ?_, hinv.1, hinv.2.2⟩
  · intro h
    obtain ⟨a, b⟩ := key env s h
    exact ⟨a, by rw [a]; exact Nat.mod_lt _ (by decide), b⟩
  · intro env2 s2 h h2 hr
    rw [(key env s h).1, (key env2 s2 h2).1, hr]

/-- C7 at the initial state with a generator whose first output is 13: the
index selected is 13 % 8 = 5. -/
theorem C7_image_index_witness :
    (boundaryCheck (scenario [] (fun _ => 13)) (init 100 100)).image_surface = 13 % 8 ∧
    (boundaryCheck (scenario [] (fun _ => 13)) (init 100 100)).image_surface < 8 ∧
    (boundaryCheck (scenario [] (fun _ => 13)) (init 100 100)).rand_calls = 0 + 1 :=
  (C7_image_index (scenario [] (fun _ => 13)) (init 100 100) [] 100 100).1
    (Or.inl (Or.inr (by decide)))

/-- C9: with the audio device queue as a list of pending buffers, the audio
statements of a collision clear the queue before they enqueue the collision
sound, so whatever was pending before, the queue holds exactly one copy of the
collision sound after an iteration that handled a collision; an iteration
without a collision leaves the queue alone; hence every state the loop reaches
from the initial state has at most one pending sound. -/
theorem C9_audio_queue (env : Env) (inp : FrameInput) (s : State)
    (inputs : List FrameInput) (w0 h0 : Int) :
    (playSound env s).audio_queue = (SDL_QueueAudio env.wav_buffer
      (SDL_ClearQueuedAudio s)).audio_queue ∧
    (playSound env s).audio_queue = [env.wav_buffer] ∧
    ((xCollision (pollEvents s inp.events) ∨ yCollision (pollEvents s inp.events)) →
      (frame env inp s).audio_queue = [env.wav_buffer]) ∧
    ((¬ xCollision (pollEvents s inp.events) ∧ ¬ yCollision (pollEvents s inp.events)) →
      (frame env inp s).audio_queue = s.audio_queue) ∧
    (mainLoop env inputs (init w0 h0)).audio_queue.length ≤ 1 := by
  refine ⟨by simp [playSound, SDL_PauseAudioDevice], ?_, ?_, ?_, ?_⟩
  · simp [playSound, SDL_PauseAudioDevice, SDL_QueueAudio, SDL_ClearQueuedAudio]
  · intro h
    exact (frame_collision env inp s h).2.1
  · intro h
    exact (frame_no_collision env inp s h.1 h.2).2.2.2.1
  · apply mainLoop_invariant env (fun _ => True) (fun t => t.audio_queue.length ≤ 1)
    · intro i t _ ht
      by_cases hc : xCollision (pollEvents t i.events) ∨ yCollision (pollEvents t i.events)
      · rw [(frame_collision env i t hc).2.1]
        simp
      · rw [(frame_no_collision env i t (fun h => hc (Or.inl h))
          (fun h => hc (Or.inr h))).2.2.2.1]
        exact ht
    · intro _ _
      trivial
    · simp [init]

/-- C9 at the first iteration of the program, which handles an x collision. -/
theorem C9_audio_queue_witness :
    (frame (scenario [7, 7] (fun _ => 0)) idle (init 100 100)).audio_queue = [[7, 7]] :=
  (C9_audio_queue (scenario [7, 7] (fun _ => 0)) idle (init 100 100) [] 100 100).2.2.1
    (Or.inl (Or.inr (by decide)))

/-- C10 fails at the first iteration: nothing assigns `rect_surface.w` and
`rect_surface.h` before the first boundary check, so they still hold their
indeterminate initial contents `w0`, `h0`, whatever the drain delivered, and
the x test of line 191 reads that `w` (the y test of line 201, which reads `h`,
is not reached in the first iteration, because `x <= 0` holds).  With
`w0 = h0 = 0` and 100x100 images the rectangle the check sees is 0x0, not
100x100; the fields are first written by the blit of that iteration, and with
SDL2's blit they then hold the clipped size 98x98, which is what the second
check reads. -/
theorem C10_first_check_reads_unassigned_size :
    (∀ (w0 h0 : Int) (events : List SDL_Event),
      (pollEvents (init w0 h0) events).rect_surface.w = w0 ∧
      (pollEvents (init w0 h0) events).rect_surface.h = h0) ∧
    (pollEvents (init 0 0) idle.events).rect_surface.w = 0 ∧
    (pollEvents (init 0 0) idle.events).rect_surface.h = 0 ∧
    (scenario [] (fun _ => 13)).images (pollEvents (init 0 0) idle.events).image_surface =
      { w := 100, h := 100 } ∧
    (frame (scenario [] (fun _ => 13)) idle (init 0 0)).rect_surface =
      { x := 0, y := 0, w := 98, h := 98 } ∧
    (scenario [] (fun _ => 13)).images
        (frame (scenario [] (fun _ => 13)) idle (init 0 0)).image_surface =
      { w := 100, h := 100 } := by
  refine ⟨fun w0 h0 events => ?_, by decide, by decide, by decide, by decide, by decide⟩
  have h := pollEvents_size events (init w0 h0)
  simpa [init] using h

end RockDvd
